import Mathlib

/-!
Shallow embedding of the compost-quality-evaluation (CQE) repository's scoring
and classification engine, and proofs checking the specification's claims
against it.

Sources embedded (floats are modelled as rationals, raised Python exceptions as
`Except CQEError`):
  - src/cqe/globs.py      : `MAX_SCORE`, `CategoryType`, `IndexType`
  - src/cqe/index.py      : `Index` (`__post_init__`, `set_score`)
  - src/cqe/compost.py    : `Limit`, `Property`, `NutritionalProperty`,
                            `HeavyMetalProperty`, the four property groups,
                            `Compost.is_compliant`, `fertility_index`,
                            `clean_index`
  - src/properties.py     : `Identity`, `Limits`, `Scores`
                            (`assign_category`), `PropertyBase`,
                            `FertilityProperty`, `CleanProperty`
  - src/compost.py        : `Compost.check_compliance`,
                            `Compost.get_fertility_index`,
                            `Compost.get_clean_index`
  - src/cqe/parameters.py : `fi_class` keys (`get_fi_property_names`)
-/

/-- Error taxonomy of the specification.  In the Python source every failure is
a raised `ValueError` (or a `ZeroDivisionError` for a zero denominator); the
spec classifies them as below and the embedding keeps that classification,
tagging each raise site with the class the spec assigns to it. -/
inductive CQEError where
  | invalidConfiguration : CQEError
  | invalidInput : CQEError
  | divisionUndefined : CQEError
deriving DecidableEq, Repr

/-- From src/cqe/globs.py: `MAX_SCORE = 5.0`. -/
def MAX_SCORE : ℚ := 5

/-- From src/cqe/globs.py: `class CategoryType(Enum)`. -/
inductive CategoryType where
  | INCREASING : CategoryType
  | DECREASING : CategoryType
deriving DecidableEq, Repr

/-- From src/cqe/globs.py: `class IndexType(Enum)`. -/
inductive IndexType where
  | CLEAN : IndexType
  | FERTILITY : IndexType
deriving DecidableEq, Repr

/-- Python `lst == sorted(lst)`: a list equals its (stable) ascending sort
exactly when it is monotonically non-decreasing, which is what this boolean
decides. -/
def nonDecr : List ℚ → Bool
  | [] => true
  | [_] => true
  | a :: b :: rest => decide (a ≤ b) && nonDecr (b :: rest)

/-- Python `lst == sorted(lst, reverse=True)`: a list equals its (stable)
descending sort exactly when it is monotonically non-increasing. -/
def nonIncr : List ℚ → Bool
  | [] => true
  | [_] => true
  | a :: b :: rest => decide (b ≤ a) && nonIncr (b :: rest)

/-- From src/cqe/index.py: `@dataclass class Index`.  The fields are in source
order; `category_type` and `score` are `field(init=False)` in Python, so
construction goes through `Index.make` below.  `score` is unset until
`set_score` runs, hence `Option`. -/
structure Index where
  typ : IndexType
  weight : ℚ
  category_limits : List ℚ
  category_type : CategoryType
  score : Option ℚ
deriving DecidableEq, Repr

/-- From src/cqe/index.py: `Index.__post_init__`.  If the limits are in
ascending order the category type is INCREASING, else if descending
DECREASING, else a `ValueError` ("Category limits must be in increasing or
decreasing order", classed `InvalidConfiguration` by the spec) is raised.
Note there is no boundary-count or weight check here. -/
def Index.make (typ : IndexType) (weight : ℚ) (category_limits : List ℚ) :
    Except CQEError Index :=
  if nonDecr category_limits then
    .ok ⟨typ, weight, category_limits, CategoryType.INCREASING, none⟩
  else if nonIncr category_limits then
    .ok ⟨typ, weight, category_limits, CategoryType.DECREASING, none⟩
  else
    .error CQEError.invalidConfiguration

/-- The decrement loop of `Index.set_score`: fold over the limits, subtracting
1 from the running score at each limit satisfying the comparison `p`. -/
def scoreLoop (p : ℚ → Bool) : List ℚ → ℚ → ℚ
  | [], s => s
  | l :: ls, s => scoreLoop p ls (if p l then s - 1 else s)

/-- From src/cqe/index.py: `Index.set_score(value)`.  The score is reset to
`MAX_SCORE` and then, for INCREASING limits, decremented once for each limit
with `value > limit`; for DECREASING limits, once for each limit with
`value < limit`.  No other field changes. -/
def Index.set_score (idx : Index) (value : ℚ) : Index :=
  match idx.category_type with
  | CategoryType.INCREASING =>
      ⟨idx.typ, idx.weight, idx.category_limits, idx.category_type,
        some (scoreLoop (fun l => decide (value > l)) idx.category_limits MAX_SCORE)⟩
  | CategoryType.DECREASING =>
      ⟨idx.typ, idx.weight, idx.category_limits, idx.category_type,
        some (scoreLoop (fun l => decide (value < l)) idx.category_limits MAX_SCORE)⟩

/-- The five-boundary ascending index used by the spec's worked example:
`Index(CLEAN, 0.5, [0.1, 0.2, 0.3, 0.4, 0.5])`. -/
def exIdx5 : Index :=
  ⟨IndexType.CLEAN, 1/2, [1/10, 1/5, 3/10, 2/5, 1/2], CategoryType.INCREASING, none⟩

theorem scoreLoop_eq_countP (p : ℚ → Bool) :
    ∀ (ls : List ℚ) (s : ℚ), scoreLoop p ls s = s - (ls.countP p : ℚ) := by
  intro ls
  induction ls with
  | nil => intro s; simp [scoreLoop]
  | cons l ls ih =>
      intro s
      by_cases h : p l
      · simp [scoreLoop, h, ih, List.countP_cons]
        ring
      · simp [scoreLoop, h, ih, List.countP_cons]

/-- From src/cqe/compost.py: `@dataclass class Limit`.  In Python the defaults
are `min = 0.0` and `max = float("inf")`; the infinite default maximum is
modelled as `none`. -/
structure Limit where
  min : ℚ
  max : Option ℚ
deriving DecidableEq, Repr

/-- From src/cqe/compost.py: `Limit.__post_init__` raises a `ValueError`
(classed `InvalidConfiguration`) when `min > max`; `min > +inf` is never
true, so a `none` maximum always passes. -/
def Limit.make (min : ℚ) (max : Option ℚ) : Except CQEError Limit :=
  match max with
  | some M =>
      if min > M then .error CQEError.invalidConfiguration else .ok ⟨min, some M⟩
  | none => .ok ⟨min, none⟩

/-- From src/cqe/compost.py: `@dataclass class Property`.  Fields in source
order.  The source performs no validation of the value at construction. -/
structure Property where
  name : String
  value : ℚ
  theoretical_limit : Limit
  compliance_limit : Limit
  show_compliance : Bool
  use_compliance : Bool
deriving DecidableEq, Repr

/-- From src/cqe/compost.py: `Property.is_compliant`, the chained comparison
`compliance_limit.min <= value <= compliance_limit.max` (a `none` maximum is
`+inf`, so only the lower bound matters then). -/
def Property.is_compliant (p : Property) : Bool :=
  decide (p.compliance_limit.min ≤ p.value) &&
    (match p.compliance_limit.max with
     | none => true
     | some M => decide (p.value ≤ M))

/-- From src/cqe/compost.py: `@dataclass class NutritionalProperty(Property)`.
Inheritance is modelled by the embedded `toProperty`. -/
structure NutritionalProperty where
  toProperty : Property
  fertilization_index : Index
deriving DecidableEq, Repr

/-- From src/cqe/compost.py: `NutritionalProperty.__post_init__`.  Raises
(classed `InvalidConfiguration`) when the index type is not FERTILITY or the
index does not have exactly 4 category limits; otherwise calls
`set_score(value)` on the index before the object becomes usable. -/
def NutritionalProperty.make (name : String) (value : ℚ)
    (theoretical_limit compliance_limit : Limit)
    (show_compliance use_compliance : Bool) (fertilization_index : Index) :
    Except CQEError NutritionalProperty :=
  if fertilization_index.typ ≠ IndexType.FERTILITY then
    .error CQEError.invalidConfiguration
  else if fertilization_index.category_limits.length ≠ 4 then
    .error CQEError.invalidConfiguration
  else
    .ok ⟨⟨name, value, theoretical_limit, compliance_limit,
          show_compliance, use_compliance⟩,
        fertilization_index.set_score value⟩

/-- From src/cqe/compost.py: `@dataclass class HeavyMetalProperty(Property)`. -/
structure HeavyMetalProperty where
  toProperty : Property
  clean_index : Index
deriving DecidableEq, Repr

/-- From src/cqe/compost.py: `HeavyMetalProperty.__post_init__`.  Raises
(classed `InvalidConfiguration`) when the index type is not CLEAN or the index
does not have exactly 5 category limits; otherwise scores the index. -/
def HeavyMetalProperty.make (name : String) (value : ℚ)
    (theoretical_limit compliance_limit : Limit)
    (show_compliance use_compliance : Bool) (clean_index : Index) :
    Except CQEError HeavyMetalProperty :=
  if clean_index.typ ≠ IndexType.CLEAN then
    .error CQEError.invalidConfiguration
  else if clean_index.category_limits.length ≠ 5 then
    .error CQEError.invalidConfiguration
  else
    .ok ⟨⟨name, value, theoretical_limit, compliance_limit,
          show_compliance, use_compliance⟩,
        clean_index.set_score value⟩

/-- From src/cqe/compost.py: `@dataclass class CompostProperties`. -/
structure CompostProperties where
  moisture : Property
  ph : Property
  conductivity : Property
  bulk_density : Property
deriving DecidableEq, Repr

/-- From src/cqe/compost.py: `@dataclass class CompostNutritionalProperties`. -/
structure CompostNutritionalProperties where
  organic_matter : NutritionalProperty
  nitrogen : NutritionalProperty
  phosphorus : NutritionalProperty
  potassium : NutritionalProperty
deriving DecidableEq, Repr

/-- The values of `self.__dict__` of a `CompostNutritionalProperties`, in field
declaration order, as iterated by `fertility_index`. -/
def CompostNutritionalProperties.props (c : CompostNutritionalProperties) :
    List NutritionalProperty :=
  [c.organic_matter, c.nitrogen, c.phosphorus, c.potassium]

/-- From src/cqe/compost.py: `CompostNutritionalProperties.fertility_index`,
`sum(weight * score) / sum(weight)` over the four nutritional members.  A zero
denominator raises Python's `ZeroDivisionError`, classed `DivisionUndefined`.
Reading an unset score would raise `AttributeError` in Python; every property
built by `NutritionalProperty.make` carries a set score, so the `getD 0`
default is never taken for constructed objects. -/
def CompostNutritionalProperties.fertility_index
    (c : CompostNutritionalProperties) : Except CQEError ℚ :=
  let num := (c.props.map fun p =>
    p.fertilization_index.weight * (p.fertilization_index.score.getD 0)).sum
  let den := (c.props.map fun p => p.fertilization_index.weight).sum
  if den = 0 then .error CQEError.divisionUndefined else .ok (num / den)

/-- From src/cqe/compost.py: `@dataclass class CompostHeavyMetalProperties`. -/
structure CompostHeavyMetalProperties where
  zinc : HeavyMetalProperty
  copper : HeavyMetalProperty
  cadmium : HeavyMetalProperty
  lead : HeavyMetalProperty
  chromium : HeavyMetalProperty
  nickel : HeavyMetalProperty
  arsenic : HeavyMetalProperty
  mercury : HeavyMetalProperty
deriving DecidableEq, Repr

/-- The values of `self.__dict__` of a `CompostHeavyMetalProperties`, in field
declaration order, as iterated by `clean_index`. -/
def CompostHeavyMetalProperties.props (c : CompostHeavyMetalProperties) :
    List HeavyMetalProperty :=
  [c.zinc, c.copper, c.cadmium, c.lead, c.chromium, c.nickel, c.arsenic, c.mercury]

/-- From src/cqe/compost.py: `CompostHeavyMetalProperties.clean_index`,
`sum(weight * score) / sum(weight)` over the eight heavy-metal members, with
the same zero-denominator and unset-score conventions as `fertility_index`. -/
def CompostHeavyMetalProperties.clean_index
    (c : CompostHeavyMetalProperties) : Except CQEError ℚ :=
  let num := (c.props.map fun p =>
    p.clean_index.weight * (p.clean_index.score.getD 0)).sum
  let den := (c.props.map fun p => p.clean_index.weight).sum
  if den = 0 then .error CQEError.divisionUndefined else .ok (num / den)

/-- From src/cqe/compost.py: `@dataclass class CompostDerivedProperties`. -/
structure CompostDerivedProperties where
  cn_ratio : NutritionalProperty
  npk_ratio : Property
deriving DecidableEq, Repr

/-- From src/cqe/compost.py: `@dataclass class Compost`. -/
structure Compost where
  properties : CompostProperties
  nutritional_properties : CompostNutritionalProperties
  heavy_metal_properties : CompostHeavyMetalProperties
  derived_properties : CompostDerivedProperties
deriving DecidableEq, Repr

/-- The `all_properties` tuple of `Compost.is_compliant`: the `vars(...)`
values of the four groups in declaration order.  The scored properties
contribute their inherited `Property` part, which is all `is_compliant` and
`use_compliance` read. -/
def Compost.all_properties (c : Compost) : List Property :=
  [c.properties.moisture, c.properties.ph, c.properties.conductivity,
    c.properties.bulk_density] ++
  (c.nutritional_properties.props.map fun p => p.toProperty) ++
  (c.heavy_metal_properties.props.map fun p => p.toProperty) ++
  [c.derived_properties.cn_ratio.toProperty, c.derived_properties.npk_ratio]

/-- From src/cqe/compost.py: `Compost.is_compliant`, Python
`all(prop.is_compliant for prop in all_properties if prop.use_compliance)`. -/
def Compost.is_compliant (c : Compost) : Bool :=
  (c.all_properties.filter fun p => p.use_compliance).all fun p => p.is_compliant

/-- From src/properties.py: `@dataclass class Identity`. -/
structure Identity where
  name : String
  value : ℚ
  units : String
deriving DecidableEq, Repr

/-- From src/properties.py: `@dataclass class Limits` with `Optional` bounds.
`__post_init__` replaces a missing bound by `-inf` / `+inf`; here `none`
keeps that infinite meaning after construction. -/
structure Limits where
  min_value : Option ℚ
  max_value : Option ℚ
deriving DecidableEq, Repr

/-- From src/properties.py: `Limits.__post_init__`.  Both bounds missing is
rejected, and so is `min_value > max_value` (classed `InvalidConfiguration`);
with an infinite bound that comparison is never true. -/
def Limits.make (min_value max_value : Option ℚ) : Except CQEError Limits :=
  match min_value, max_value with
  | none, none => .error CQEError.invalidConfiguration
  | some m, some M =>
      if m > M then .error CQEError.invalidConfiguration else .ok ⟨some m, some M⟩
  | mn, mx => .ok ⟨mn, mx⟩

/-- Python `value < self.min_value` inside `Limits.validate`, where a `none`
minimum stands for `-inf`. -/
def Limits.belowMin (L : Limits) (v : ℚ) : Bool :=
  match L.min_value with
  | none => false
  | some m => decide (v < m)

/-- Python `value > self.max_value` inside `Limits.validate`, where a `none`
maximum stands for `+inf`. -/
def Limits.aboveMax (L : Limits) (v : ℚ) : Bool :=
  match L.max_value with
  | none => false
  | some M => decide (v > M)

/-- From src/properties.py: `Limits.validate(identity)` raises (classed
`InvalidInput`) when `value < min_value or value > max_value`. -/
def Limits.validate (L : Limits) (i : Identity) : Except CQEError Unit :=
  if L.belowMin i.value || L.aboveMax i.value then .error CQEError.invalidInput
  else .ok ()

/-- From src/properties.py: `Limits.is_compliant(value)`, the chained
comparison `min_value <= value <= max_value` with infinite missing bounds. -/
def Limits.is_compliant (L : Limits) (v : ℚ) : Bool :=
  (match L.min_value with | none => true | some m => decide (m ≤ v)) &&
    (match L.max_value with | none => true | some M => decide (v ≤ M))

/-- From src/properties.py: `@dataclass class Scores`.  Fields in source
order; `category` and `ascending` are `field(init=False)`, and `category` is
unset until `assign_category` runs, hence `Option`. -/
structure Scores where
  weight : ℚ
  limits : List ℚ
  category : Option ℤ
  ascending : Bool
deriving DecidableEq, Repr

/-- From src/properties.py: `Scores.__post_init__`, the same
ascending-or-descending check as `Index.__post_init__` (classed
`InvalidConfiguration` on failure). -/
def Scores.make (weight : ℚ) (limits : List ℚ) : Except CQEError Scores :=
  if nonDecr limits then .ok ⟨weight, limits, none, true⟩
  else if nonIncr limits then .ok ⟨weight, limits, none, false⟩
  else .error CQEError.invalidConfiguration

/-- The early-exit loop of `Scores.assign_category`: at each limit, when the
stop condition `p` holds the current category is returned, otherwise the
category is decremented and the loop continues. -/
def assignLoop (p : ℚ → Bool) : List ℚ → ℤ → ℤ
  | [], cat => cat
  | l :: ls, cat => if p l then cat else assignLoop p ls (cat - 1)

/-- From src/properties.py: `Scores.assign_category(value, clean)`.  The
category starts at `len(limits)` when `clean` else `len(limits) + 1`;
ascending limits stop at the first limit with `value < limit`, descending at
the first with `value > limit`. -/
def Scores.assign_category (s : Scores) (value : ℚ) (clean : Bool) : Scores :=
  let start : ℤ := if clean then s.limits.length else s.limits.length + 1
  if s.ascending then
    ⟨s.weight, s.limits,
      some (assignLoop (fun l => decide (value < l)) s.limits start), s.ascending⟩
  else
    ⟨s.weight, s.limits,
      some (assignLoop (fun l => decide (value > l)) s.limits start), s.ascending⟩

/-- From src/properties.py: `@dataclass class PropertyBase`. -/
structure PropertyBase where
  identity : Identity
  valid_range : Limits
  compliance_range : Limits
deriving DecidableEq, Repr

/-- From src/properties.py: the `PropertyBase.compliance` property. -/
def PropertyBase.compliance (p : PropertyBase) : Bool :=
  p.compliance_range.is_compliant p.identity.value

/-- From src/properties.py: `PropertyBase.__post_init__` runs
`valid_range.validate(identity)`; the compliance range is not consulted at
construction. -/
def PropertyBase.make (identity : Identity)
    (valid_range compliance_range : Limits) : Except CQEError PropertyBase :=
  match valid_range.validate identity with
  | .error e => .error e
  | .ok _ => .ok ⟨identity, valid_range, compliance_range⟩

/-- From src/properties.py: `@dataclass class FertilityProperty(PropertyBase)`. -/
structure FertilityProperty where
  toPropertyBase : PropertyBase
  fertility : Scores
deriving DecidableEq, Repr

/-- From src/properties.py: `FertilityProperty.__post_init__`: the base
validation followed by `fertility.assign_category(value)` (with the default
`clean=False`). -/
def FertilityProperty.make (identity : Identity)
    (valid_range compliance_range : Limits) (fertility : Scores) :
    Except CQEError FertilityProperty :=
  match valid_range.validate identity with
  | .error e => .error e
  | .ok _ =>
      .ok ⟨⟨identity, valid_range, compliance_range⟩,
        fertility.assign_category identity.value false⟩

/-- From src/properties.py: `@dataclass class CleanProperty(PropertyBase)`. -/
structure CleanProperty where
  toPropertyBase : PropertyBase
  clean : Scores
deriving DecidableEq, Repr

/-- From src/properties.py: `CleanProperty.__post_init__`: the base validation
followed by `clean.assign_category(value, clean=True)`. -/
def CleanProperty.make (identity : Identity)
    (valid_range compliance_range : Limits) (clean : Scores) :
    Except CQEError CleanProperty :=
  match valid_range.validate identity with
  | .error e => .error e
  | .ok _ =>
      .ok ⟨⟨identity, valid_range, compliance_range⟩,
        clean.assign_category identity.value true⟩

/-- The accumulation loop of `Compost.get_fertility_index` in src/compost.py:
`num += prop.fertility.category * prop.fertility.weight; den +=
prop.fertility.weight` over the fertility-group properties. -/
def fiLoop : List FertilityProperty → ℚ → ℚ → ℚ × ℚ
  | [], num, den => (num, den)
  | p :: ps, num, den =>
      fiLoop ps (num + ((p.fertility.category.getD 0 : ℤ) : ℚ) * p.fertility.weight)
        (den + p.fertility.weight)

/-- From src/compost.py: `Compost.get_fertility_index`, as a function of the
fertility-group property collection it iterates (under the repository's fixed
parameters that collection is Carbon, Nitrogen, Phosphorous, Potassium and the
derived Ratio).  A zero denominator raises `ZeroDivisionError`, classed
`DivisionUndefined`; an unset category would raise `AttributeError` in Python
and every constructed `FertilityProperty` has one, so `getD 0` is never taken
for constructed objects. -/
def get_fertility_index (props : List FertilityProperty) : Except CQEError ℚ :=
  let nd := fiLoop props 0 0
  if nd.2 = 0 then .error CQEError.divisionUndefined else .ok (nd.1 / nd.2)

/-- The accumulation loop of `Compost.get_clean_index` in src/compost.py. -/
def ciLoop : List CleanProperty → ℚ → ℚ → ℚ × ℚ
  | [], num, den => (num, den)
  | p :: ps, num, den =>
      ciLoop ps (num + ((p.clean.category.getD 0 : ℤ) : ℚ) * p.clean.weight)
        (den + p.clean.weight)

/-- From src/compost.py: `Compost.get_clean_index`, as a function of the
clean-group property collection it iterates. -/
def get_clean_index (props : List CleanProperty) : Except CQEError ℚ :=
  let nd := ciLoop props 0 0
  if nd.2 = 0 then .error CQEError.divisionUndefined else .ok (nd.1 / nd.2)

/-- From src/compost.py: `Compost.check_compliance`, which walks the BASIC,
FERTILITY and CLEAN groups in that order and returns `False` at the first
property with `not prop.compliance_range.is_compliant(prop.identity.value)`,
else `True` - equivalently the conjunction below. -/
def check_compliance (basic : List PropertyBase) (fert : List FertilityProperty)
    (clean : List CleanProperty) : Bool :=
  (basic.all fun p => p.compliance_range.is_compliant p.identity.value) &&
    (fert.all fun p =>
      p.toPropertyBase.compliance_range.is_compliant p.toPropertyBase.identity.value) &&
    (clean.all fun p =>
      p.toPropertyBase.compliance_range.is_compliant p.toPropertyBase.identity.value)

/-- From src/cqe/parameters.py: `get_fi_property_names()`, the keys of
`fi_class` / `fi_weight` - the property names contributing to the fertility
index, including the derived carbon/nitrogen "Ratio". -/
def get_fi_property_names : List String :=
  ["Carbon", "Nitrogen", "Phosphorous", "Potassium", "Ratio"]

/-- C1: for an Index with INCREASING boundaries, `set_score value` stores
`MAX_SCORE` minus the number of boundaries `b` with `value > b` (a cumulative
decrement over every boundary, no early exit); for DECREASING boundaries it
stores `MAX_SCORE` minus the number of boundaries `b` with `value < b`; and on
the ascending boundaries `[0.1, 0.2, 0.3, 0.4, 0.5]` the inputs 0.05, 0.15,
0.25, 0.35, 0.45, 0.55 score 5.0, 4.0, 3.0, 2.0, 1.0, 0.0 respectively. -/
theorem c1_set_score_cumulative_decrement :
    (∀ (idx : Index) (value : ℚ), idx.category_type = CategoryType.INCREASING →
      (idx.set_score value).score =
        some (MAX_SCORE - (idx.category_limits.countP (fun l => decide (value > l)) : ℚ))) ∧
    (∀ (idx : Index) (value : ℚ), idx.category_type = CategoryType.DECREASING →
      (idx.set_score value).score =
        some (MAX_SCORE - (idx.category_limits.countP (fun l => decide (value < l)) : ℚ))) ∧
    Index.make IndexType.CLEAN (1/2) [1/10, 1/5, 3/10, 2/5, 1/2] = .ok exIdx5 ∧
    (exIdx5.set_score (1/20)).score = some 5 ∧
    (exIdx5.set_score (3/20)).score = some 4 ∧
    (exIdx5.set_score (1/4)).score = some 3 ∧
    (exIdx5.set_score (7/20)).score = some 2 ∧
    (exIdx5.set_score (9/20)).score = some 1 ∧
    (exIdx5.set_score (11/20)).score = some 0 := by
  refine ⟨?_, ?_, ?_, ?_, ?_, ?_, ?_, ?_, ?_⟩
  · intro idx value h
    simp [Index.set_score, h, scoreLoop_eq_countP]
  · intro idx value h
    simp [Index.set_score, h, scoreLoop_eq_countP]
  · norm_num [Index.make, nonDecr, exIdx5]
  all_goals norm_num [Index.set_score, scoreLoop, exIdx5, MAX_SCORE]

/-- Witness for C1: the first conjunct applied to the concrete five-boundary
ascending index at value 0.15. -/
theorem c1_set_score_cumulative_decrement_witness :
    (exIdx5.set_score (3/20)).score =
      some (MAX_SCORE -
        (exIdx5.category_limits.countP (fun l => decide ((3/20 : ℚ) > l)) : ℚ)) :=
  c1_set_score_cumulative_decrement.1 exIdx5 (3/20) rfl

/-- C9: re-scoring is fully re-derived - `set_score v1` followed by
`set_score v2` leaves exactly the state that `set_score v2` alone produces,
with no residual effect of the first call. -/
theorem c9_set_score_rederives :
    ∀ (idx : Index) (v1 v2 : ℚ), (idx.set_score v1).set_score v2 = idx.set_score v2 := by
  intro idx v1 v2
  cases h : idx.category_type <;> simp [Index.set_score, h]

/-- C10: with INCREASING boundaries the assigned score is antitone in the
input value; with DECREASING boundaries it is monotone. -/
theorem c10_set_score_monotone :
    (∀ (idx : Index) (v1 v2 s1 s2 : ℚ), idx.category_type = CategoryType.INCREASING →
      v1 ≤ v2 → (idx.set_score v1).score = some s1 → (idx.set_score v2).score = some s2 →
      s2 ≤ s1) ∧
    (∀ (idx : Index) (v1 v2 s1 s2 : ℚ), idx.category_type = CategoryType.DECREASING →
      v1 ≤ v2 → (idx.set_score v1).score = some s1 → (idx.set_score v2).score = some s2 →
      s1 ≤ s2) := by
  constructor
  · intro idx v1 v2 s1 s2 hct hle h1 h2
    simp [Index.set_score, hct, scoreLoop_eq_countP] at h1 h2
    have hc : idx.category_limits.countP (fun l => decide (v1 > l)) ≤
        idx.category_limits.countP (fun l => decide (v2 > l)) := by
      apply List.countP_mono_left
      intro x hx hpx
      simp only [decide_eq_true_eq] at hpx ⊢
      exact lt_of_lt_of_le hpx hle
    have hc' : (idx.category_limits.countP (fun l => decide (v1 > l)) : ℚ) ≤
        (idx.category_limits.countP (fun l => decide (v2 > l)) : ℚ) := by
      exact_mod_cast hc
    rw [← h1, ← h2]
    linarith
  · intro idx v1 v2 s1 s2 hct hle h1 h2
    simp [Index.set_score, hct, scoreLoop_eq_countP] at h1 h2
    have hc : idx.category_limits.countP (fun l => decide (v2 < l)) ≤
        idx.category_limits.countP (fun l => decide (v1 < l)) := by
      apply List.countP_mono_left
      intro x hx hpx
      simp only [decide_eq_true_eq] at hpx ⊢
      exact lt_of_le_of_lt hle hpx
    have hc' : (idx.category_limits.countP (fun l => decide (v2 < l)) : ℚ) ≤
        (idx.category_limits.countP (fun l => decide (v1 < l)) : ℚ) := by
      exact_mod_cast hc
    rw [← h1, ← h2]
    linarith

/-- Witness for C10: on the concrete ascending index, value 0.15 scores 4,
value 0.35 scores 2, and the first conjunct yields 2 <= 4. -/
theorem c10_set_score_monotone_witness :
    (exIdx5.set_score (3/20)).score = some 4 ∧
    (exIdx5.set_score (7/20)).score = some 2 ∧
    (2 : ℚ) ≤ 4 := by
  refine ⟨?_, ?_, ?_⟩
  · norm_num [Index.set_score, scoreLoop, exIdx5, MAX_SCORE]
  · norm_num [Index.set_score, scoreLoop, exIdx5, MAX_SCORE]
  · exact c10_set_score_monotone.1 exIdx5 (3/20) (7/20) 4 2 rfl (by norm_num)
      (by norm_num [Index.set_score, scoreLoop, exIdx5, MAX_SCORE])
      (by norm_num [Index.set_score, scoreLoop, exIdx5, MAX_SCORE])

/-- C4 counterexample: constructing the Index itself with kind CLEAN, weight
0.5 and only three boundaries `[0.1, 0.2, 0.3]` succeeds (the repository's
own test_index_passing asserts exactly this), so a boundary-count mismatch
does not fail Index construction. -/
theorem c4_counterexample_index_construction_succeeds :
    Index.make IndexType.CLEAN (1/2) [1/10, 1/5, 3/10] =
      .ok ⟨IndexType.CLEAN, 1/2, [1/10, 1/5, 3/10], CategoryType.INCREASING, none⟩ := by
  norm_num [Index.make, nonDecr]

/-- C4 (amended): the boundary-count constraint is enforced when a scored
property is constructed, not when the Index is: `NutritionalProperty.make`
fails with InvalidConfiguration when its FERTILITY index does not have exactly
4 limits, `HeavyMetalProperty.make` when its CLEAN index does not have exactly
5; in particular a heavy-metal property built on a 3-boundary CLEAN index
fails. -/
theorem c4_boundary_count_checked_at_scored_property :
    (∀ (n : String) (v : ℚ) (tl cl : Limit) (sc uc : Bool) (idx : Index),
      idx.typ = IndexType.FERTILITY → idx.category_limits.length ≠ 4 →
      NutritionalProperty.make n v tl cl sc uc idx =
        .error CQEError.invalidConfiguration) ∧
    (∀ (n : String) (v : ℚ) (tl cl : Limit) (sc uc : Bool) (idx : Index),
      idx.typ = IndexType.CLEAN → idx.category_limits.length ≠ 5 →
      HeavyMetalProperty.make n v tl cl sc uc idx =
        .error CQEError.invalidConfiguration) ∧
    HeavyMetalProperty.make "zinc" 1 ⟨0, none⟩ ⟨0, some 1000⟩ true true
      ⟨IndexType.CLEAN, 1/2, [1/10, 1/5, 3/10], CategoryType.INCREASING, none⟩ =
      .error CQEError.invalidConfiguration := by
  refine ⟨?_, ?_, ?_⟩
  · intro n v tl cl sc uc idx ht hl
    simp [NutritionalProperty.make, ht, hl]
  · intro n v tl cl sc uc idx ht hl
    simp [HeavyMetalProperty.make, ht, hl]
  · simp [HeavyMetalProperty.make]

/-- Witness for C4 (amended): the CLEAN conjunct applied to the concrete
3-boundary CLEAN index. -/
theorem c4_boundary_count_checked_at_scored_property_witness :
    HeavyMetalProperty.make "zinc" 1 ⟨0, none⟩ ⟨0, some 1000⟩ true true
      ⟨IndexType.CLEAN, 1/2, [1/10, 1/5, 3/10], CategoryType.INCREASING, none⟩ =
      .error CQEError.invalidConfiguration :=
  c4_boundary_count_checked_at_scored_property.2.1 "zinc" 1 ⟨0, none⟩ ⟨0, some 1000⟩
    true true ⟨IndexType.CLEAN, 1/2, [1/10, 1/5, 3/10], CategoryType.INCREASING, none⟩
    rfl (by decide)

/-- C5: the two score-assignment algorithms in the source disagree on a common
monotone input: on the ascending four-boundary list [1, 2, 3, 4] at value 1
(both constructions succeeding), the cumulative algorithm `Index.set_score`
yields score 5.0 while the early-exit algorithm `Scores.assign_category`
yields category 4. -/
theorem c5_two_scoring_algorithms_differ :
    ∃ (value : ℚ) (limits : List ℚ) (idx : Index) (sc : Scores),
      Index.make IndexType.FERTILITY 1 limits = .ok idx ∧
      Scores.make 1 limits = .ok sc ∧
      (idx.set_score value).score = some 5 ∧
      (sc.assign_category value false).category = some 4 ∧
      ((4 : ℤ) : ℚ) ≠ (5 : ℚ) := by
  refine ⟨1, [1, 2, 3, 4],
    ⟨IndexType.FERTILITY, 1, [1, 2, 3, 4], CategoryType.INCREASING, none⟩,
    ⟨1, [1, 2, 3, 4], none, true⟩, ?_, ?_, ?_, ?_, by norm_num⟩
  · norm_num [Index.make, nonDecr]
  · norm_num [Scores.make, nonDecr]
  · norm_num [Index.set_score, scoreLoop, MAX_SCORE]
  · norm_num [Scores.assign_category, assignLoop]

/-- C7 counterexample: the constant boundary list `[0.2, 0.2]` is
monotonically non-increasing, yet construction succeeds with derived direction
INCREASING, not DECREASING - a tie between the two orders goes to the
ascending branch. -/
theorem c7_counterexample_tie_goes_increasing :
    nonIncr [1/5, 1/5] = true ∧
    Index.make IndexType.FERTILITY 1 [1/5, 1/5] =
      .ok ⟨IndexType.FERTILITY, 1, [1/5, 1/5], CategoryType.INCREASING, none⟩ ∧
    CategoryType.INCREASING ≠ CategoryType.DECREASING := by
  refine ⟨?_, ?_, by decide⟩
  · norm_num [nonIncr]
  · norm_num [Index.make, nonDecr]

/-- C7 (amended): boundary lists that are neither non-decreasing nor
non-increasing always fail Index construction with InvalidConfiguration,
regardless of kind (and likewise Scores construction, e.g. on
`[0.1, 0.3, 0.2]`); on success the derived direction is INCREASING for
non-decreasing boundaries, and DECREASING for boundaries that are
non-increasing but not non-decreasing (ties resolve to INCREASING). -/
theorem c7_monotonicity_determines_direction :
    (∀ (typ : IndexType) (w : ℚ) (ls : List ℚ),
      nonDecr ls = false → nonIncr ls = false →
      Index.make typ w ls = .error CQEError.invalidConfiguration) ∧
    (∀ (typ : IndexType) (w : ℚ) (ls : List ℚ), nonDecr ls = true →
      Index.make typ w ls = .ok ⟨typ, w, ls, CategoryType.INCREASING, none⟩) ∧
    (∀ (typ : IndexType) (w : ℚ) (ls : List ℚ),
      nonDecr ls = false → nonIncr ls = true →
      Index.make typ w ls = .ok ⟨typ, w, ls, CategoryType.DECREASING, none⟩) ∧
    (∀ (typ : IndexType) (w : ℚ),
      Index.make typ w [1/10, 3/10, 1/5] = .error CQEError.invalidConfiguration) ∧
    (∀ w : ℚ, Scores.make w [1/10, 3/10, 1/5] = .error CQEError.invalidConfiguration) := by
  refine ⟨?_, ?_, ?_, ?_, ?_⟩
  · intro typ w ls h1 h2
    simp [Index.make, h1, h2]
  · intro typ w ls h1
    simp [Index.make, h1]
  · intro typ w ls h1 h2
    simp [Index.make, h1, h2]
  · intro typ w
    norm_num [Index.make, nonDecr, nonIncr]
  · intro w
    norm_num [Scores.make, nonDecr, nonIncr]

/-- Witness for C7 (amended): the failure conjunct applied to the concrete
non-monotonic list `[0.1, 0.3, 0.2]`. -/
theorem c7_monotonicity_determines_direction_witness :
    Index.make IndexType.CLEAN 1 [1/10, 3/10, 1/5] =
      .error CQEError.invalidConfiguration :=
  c7_monotonicity_determines_direction.1 IndexType.CLEAN 1 [1/10, 3/10, 1/5]
    (by norm_num [nonDecr]) (by norm_num [nonIncr])

/-- C3: `Compost.is_compliant` is the conjunction of the per-property
compliance predicate over the compliance-checked properties of every group:
it is false iff some checked property is non-compliant, true iff every checked
property is compliant, per-property compliance is the inclusive comparison
`min <= value <= max`, and the src/compost.py draft `check_compliance` is the
same conjunction over its three groups. -/
theorem c3_is_compliant_iff_all_within_limits :
    (∀ c : Compost, c.is_compliant = false ↔
      ∃ p ∈ c.all_properties, p.use_compliance = true ∧ p.is_compliant = false) ∧
    (∀ c : Compost, c.is_compliant = true ↔
      ∀ p ∈ c.all_properties, p.use_compliance = true → p.is_compliant = true) ∧
    (∀ p : Property, p.is_compliant = true ↔
      (p.compliance_limit.min ≤ p.value ∧ ∀ M ∈ p.compliance_limit.max, p.value ≤ M)) ∧
    (∀ (basic : List PropertyBase) (fert : List FertilityProperty)
        (clean : List CleanProperty),
      check_compliance basic fert clean = true ↔
        ((∀ p ∈ basic, p.compliance_range.is_compliant p.identity.value = true) ∧
         (∀ p ∈ fert, p.toPropertyBase.compliance_range.is_compliant
            p.toPropertyBase.identity.value = true) ∧
         (∀ p ∈ clean, p.toPropertyBase.compliance_range.is_compliant
            p.toPropertyBase.identity.value = true))) := by
  refine ⟨?_, ?_, ?_, ?_⟩
  · intro c
    simp [Compost.is_compliant, List.all_eq_false, List.mem_filter]
  · intro c
    simp only [Compost.is_compliant, List.all_eq_true, List.mem_filter]
    constructor
    · intro h p hp hu
      exact h p ⟨hp, hu⟩
    · intro h p hp
      exact h p hp.1 hp.2
  · intro p
    cases hm : p.compliance_limit.max <;>
      simp [Property.is_compliant, hm]
  · intro basic fert clean
    simp only [check_compliance, Bool.and_eq_true, List.all_eq_true]
    tauto

/-- C6: constructing a PropertyBase whose value lies outside its theoretical
validity range fails with InvalidInput, while the compliance range is not
consulted at construction: a physically valid but non-compliant value
constructs successfully (and then reports non-compliance on demand). -/
theorem c6_validity_enforced_compliance_deferred :
    (∀ (i : Identity) (vr cr : Limits),
      (vr.belowMin i.value || vr.aboveMax i.value) = true →
      PropertyBase.make i vr cr = .error CQEError.invalidInput) ∧
    (∀ (i : Identity) (vr cr : Limits),
      (vr.belowMin i.value || vr.aboveMax i.value) = false →
      PropertyBase.make i vr cr = .ok ⟨i, vr, cr⟩) ∧
    PropertyBase.make ⟨"Moisture Content", 50, "%"⟩ ⟨some 0, some 100⟩
        ⟨some 15, some 25⟩ =
      .ok ⟨⟨"Moisture Content", 50, "%"⟩, ⟨some 0, some 100⟩, ⟨some 15, some 25⟩⟩ ∧
    PropertyBase.compliance
        ⟨⟨"Moisture Content", 50, "%"⟩, ⟨some 0, some 100⟩, ⟨some 15, some 25⟩⟩ = false ∧
    PropertyBase.make ⟨"Moisture Content", 200, "%"⟩ ⟨some 0, some 100⟩
        ⟨some 15, some 25⟩ =
      .error CQEError.invalidInput := by
  refine ⟨?_, ?_, ?_, ?_, ?_⟩
  · intro i vr cr h
    simp [PropertyBase.make, Limits.validate, h]
  · intro i vr cr h
    simp [PropertyBase.make, Limits.validate, h]
  · norm_num [PropertyBase.make, Limits.validate, Limits.belowMin, Limits.aboveMax]
  · norm_num [PropertyBase.compliance, Limits.is_compliant]
  · norm_num [PropertyBase.make, Limits.validate, Limits.belowMin, Limits.aboveMax]

/-- Witness for C6: the failure conjunct applied to a measurement of 200 on
the validity range [0, 100]. -/
theorem c6_validity_enforced_compliance_deferred_witness :
    PropertyBase.make ⟨"Moisture Content", 200, "%"⟩ ⟨some 0, some 100⟩
        ⟨some 15, some 25⟩ = .error CQEError.invalidInput :=
  c6_validity_enforced_compliance_deferred.1 ⟨"Moisture Content", 200, "%"⟩
    ⟨some 0, some 100⟩ ⟨some 15, some 25⟩
    (by norm_num [Limits.belowMin, Limits.aboveMax])

theorem fiLoop_eq_sums (ps : List FertilityProperty) : ∀ num den : ℚ,
    fiLoop ps num den =
      (num + (ps.map fun p =>
        ((p.fertility.category.getD 0 : ℤ) : ℚ) * p.fertility.weight).sum,
       den + (ps.map fun p => p.fertility.weight).sum) := by
  induction ps with
  | nil => intro num den; simp [fiLoop]
  | cons p ps ih =>
      intro num den
      simp only [fiLoop, ih, List.map_cons, List.sum_cons, Prod.mk.injEq]
      constructor <;> ring

theorem ciLoop_eq_sums (ps : List CleanProperty) : ∀ num den : ℚ,
    ciLoop ps num den =
      (num + (ps.map fun p =>
        ((p.clean.category.getD 0 : ℤ) : ℚ) * p.clean.weight).sum,
       den + (ps.map fun p => p.clean.weight).sum) := by
  induction ps with
  | nil => intro num den; simp [ciLoop]
  | cons p ps ih =>
      intro num den
      simp only [ciLoop, ih, List.map_cons, List.sum_cons, Prod.mk.injEq]
      constructor <;> ring

/-- A fertility property with weight 5 whose category assignment lands on 4
(carbon-style descending class boundaries, value 18). -/
def fpA : FertilityProperty :=
  ⟨⟨⟨"Carbon", 18, "%"⟩, ⟨some 0, some 100⟩, ⟨some 12, some 100⟩⟩,
    ⟨5, [20.05, 15.05, 12.05, 9.05], some 4, false⟩⟩

/-- A fertility property with weight 3 whose category assignment lands on 2
(nitrogen-style descending class boundaries, value 0.6). -/
def fpB : FertilityProperty :=
  ⟨⟨⟨"Nitrogen", 3/5, "%"⟩, ⟨some 0, some 100⟩, ⟨some (4/5), some 100⟩⟩,
    ⟨3, [1.25, 1.05, 0.805, 0.505], some 2, false⟩⟩

/-- C2: the fertility index is the weighted mean
`sum(score_i * weight_i) / sum(weight_i)` over the fertility-scored
properties: so for `get_fertility_index` (src/compost.py), whose property
group under the repository's parameters is the four nutrients plus the derived
carbon/nitrogen "Ratio"; so for the cqe draft `fertility_index` over its four
nutritional members; and two contributing properties of weights 5 and 3 with
assigned scores 4 and 2 (both actually constructible) yield 3.25. -/
theorem c2_fertility_index_weighted_mean :
    (∀ props : List FertilityProperty,
      (props.map fun p => p.fertility.weight).sum ≠ 0 →
      get_fertility_index props = .ok
        ((props.map fun p =>
          ((p.fertility.category.getD 0 : ℤ) : ℚ) * p.fertility.weight).sum /
         (props.map fun p => p.fertility.weight).sum)) ∧
    "Ratio" ∈ get_fi_property_names ∧
    (∀ c : CompostNutritionalProperties,
      (c.props.map fun p => p.fertilization_index.weight).sum ≠ 0 →
      c.fertility_index = .ok
        ((c.props.map fun p =>
          p.fertilization_index.weight * (p.fertilization_index.score.getD 0)).sum /
         (c.props.map fun p => p.fertilization_index.weight).sum)) ∧
    FertilityProperty.make ⟨"Carbon", 18, "%"⟩ ⟨some 0, some 100⟩
      ⟨some 12, some 100⟩ ⟨5, [20.05, 15.05, 12.05, 9.05], none, false⟩ = .ok fpA ∧
    FertilityProperty.make ⟨"Nitrogen", 3/5, "%"⟩ ⟨some 0, some 100⟩
      ⟨some (4/5), some 100⟩ ⟨3, [1.25, 1.05, 0.805, 0.505], none, false⟩ = .ok fpB ∧
    get_fertility_index [fpA, fpB] = .ok 3.25 := by
  refine ⟨?_, ?_, ?_, ?_, ?_, ?_⟩
  · intro props h
    simp [get_fertility_index, fiLoop_eq_sums, h]
  · simp [get_fi_property_names]
  · intro c h
    simp [CompostNutritionalProperties.fertility_index, h]
  · norm_num [FertilityProperty.make, Limits.validate, Limits.belowMin,
      Limits.aboveMax, Scores.assign_category, assignLoop, fpA]
  · norm_num [FertilityProperty.make, Limits.validate, Limits.belowMin,
      Limits.aboveMax, Scores.assign_category, assignLoop, fpB]
  · norm_num [get_fertility_index, fiLoop, fpA, fpB]

/-- Witness for C2: the weighted-mean conjunct applied to the concrete
two-property group of weights 5 and 3 with scores 4 and 2. -/
theorem c2_fertility_index_weighted_mean_witness :
    get_fertility_index [fpA, fpB] = .ok
      (([fpA, fpB].map fun p =>
        ((p.fertility.category.getD 0 : ℤ) : ℚ) * p.fertility.weight).sum /
       ([fpA, fpB].map fun p => p.fertility.weight).sum) :=
  c2_fertility_index_weighted_mean.1 [fpA, fpB] (by norm_num [fpA, fpB])

/-- C8: a zero total weight makes every index query fail with
DivisionUndefined instead of returning a number - for the cqe
`fertility_index` and `clean_index` and for the src/compost.py draft
`get_fertility_index` and `get_clean_index` alike. -/
theorem c8_zero_total_weight_fails :
    (∀ c : CompostNutritionalProperties,
      (c.props.map fun p => p.fertilization_index.weight).sum = 0 →
      c.fertility_index = .error CQEError.divisionUndefined) ∧
    (∀ c : CompostHeavyMetalProperties,
      (c.props.map fun p => p.clean_index.weight).sum = 0 →
      c.clean_index = .error CQEError.divisionUndefined) ∧
    (∀ props : List FertilityProperty,
      (props.map fun p => p.fertility.weight).sum = 0 →
      get_fertility_index props = .error CQEError.divisionUndefined) ∧
    (∀ props : List CleanProperty,
      (props.map fun p => p.clean.weight).sum = 0 →
      get_clean_index props = .error CQEError.divisionUndefined) := by
  refine ⟨?_, ?_, ?_, ?_⟩
  · intro c h
    simp [CompostNutritionalProperties.fertility_index, h]
  · intro c h
    simp [CompostHeavyMetalProperties.clean_index, h]
  · intro props h
    simp [get_fertility_index, fiLoop_eq_sums, h]
  · intro props h
    simp [get_clean_index, ciLoop_eq_sums, h]

/-- Witness for C8: the empty fertility group has total weight zero and the
draft fertility index fails on it with DivisionUndefined. -/
theorem c8_zero_total_weight_fails_witness :
    get_fertility_index [] = .error CQEError.divisionUndefined :=
  c8_zero_total_weight_fails.2.2.1 [] (by simp)
